import Mathlib

/-!
Verification of the system-bus component of the red-planet simulator
(`src/red-planet-core/src/board/system_bus.rs`).

The bus and its devices are generic over an allocator `A`; all device state lives
in allocator-managed storage.  We embed that storage as an abstract state type `σ`
threaded through every operation, and each external device capability
(`crate::bus::Bus`) as a record of functions on `σ`.  Buffers (`[u8]`) are embedded
as `List Nat`; `u32` values as `Nat` with explicit `2 ^ 32` bounds where overflow or
truncation matters; a Rust panic is embedded as `none` of an outer `Option`.
-/

namespace RedPlanet

/-- Enum that uniquely identifies every device attached to a `SystemBus` (as a slave).
Embeds `Resource` from `system_bus.rs`. -/
inductive Resource
  | Mrom
  | Clint
  | Plic
  | Uart0
  | Flash
  | Dram
  | PowerDown
deriving DecidableEq

/-- Direction of a bus access.  Modelled from the spec: the access-type enumeration
(`crate::system_bus::AccessType`) lives outside the given source file; the spec
describes every access as having a read or a write direction. -/
inductive AccessType
  | Read
  | Write
deriving DecidableEq

/-- Inclusive 32-bit address range as produced by the address map
(`RangeInclusive<u32>`); `start()` and `end()` become `start` and `endAddr`. -/
structure AddressRange where
  start : Nat
  endAddr : Nat
deriving DecidableEq

/-- Modelled from the spec: the bidirectional address map
(`crate::address_map::TwoWayAddressMap`) lives outside the given source file.  The
spec requires a total lookup from an address to its covering range together with an
optional resource tag. -/
structure TwoWayAddressMap where
  range_value : Nat → AddressRange × Option Resource

/-- Modelled from the spec: the device capability (`crate::bus::Bus`) lives outside
the given source file.  Each peripheral exposes `read`, `read_debug` and `write` in
its own zero-based offset space.  `read` may fill the buffer and mutate state;
`read_debug` sees the state read-only; `write` mutates state only. -/
structure DevBus (σ : Type) where
  read : List Nat → σ → Nat → List Nat × σ
  read_debug : List Nat → σ → Nat → List Nat
  write : σ → Nat → List Nat → σ

/-- A device that additionally holds allocator-managed backing storage which must be
explicitly released through its `drop` operation. -/
structure OwnedDev (σ : Type) extends DevBus σ where
  drop : σ → σ

/-- The platform interrupt controller: an owned device that additionally exposes
`raise`/`lower` per interrupt channel (`Plic::raise` / `Plic::lower`). -/
structure PlicDev (σ : Type) extends OwnedDev σ where
  raise : σ → Nat → σ
  lower : σ → Nat → σ

/-- Abstraction of a system's main bus connecting all devices to the core.
Embeds the `SystemBus<A>` struct: the address map plus one instance of every
device.  The power-down register holds no allocator-managed storage, hence is a
plain `DevBus`. -/
structure SystemBus (σ : Type) where
  memory_map : TwoWayAddressMap
  mrom : OwnedDev σ
  clint : OwnedDev σ
  plic : PlicDev σ
  uart0 : OwnedDev σ
  flash : OwnedDev σ
  dram : OwnedDev σ
  power_down : DevBus σ

/-- Validates the `(address, size)` pair, returning `some (resource, mapped_address)`
if the access is accepted, and `none` otherwise.  Direct embedding of
`SystemBus::check_access`: `size.checked_sub(1)` fails for `size = 0`,
`u32::try_from(delta)` fails when `size - 1` does not fit in 32 bits, and either
failure rejects the access (`unwrap_or(true)`); otherwise the access is rejected
when `range.end() - address < size - 1`.  The `u32` subtractions are embedded as
truncated `Nat` subtraction, which agrees with `u32` subtraction whenever no
underflow occurs (see `check_access_checked` for the panic-tracking variant). -/
def check_access (bus : SystemBus σ) (address : Nat) (size : Nat) :
    Option (Resource × Nat) :=
  match bus.memory_map.range_value address with
  | (_, none) => none
  | (range, some resource) =>
    if size = 0 then none
    else if 2 ^ 32 ≤ size - 1 then none
    else if range.endAddr - address < size - 1 then none
    else some (resource, address - range.start)

/-- Checked 32-bit subtraction: `none` embeds the overflow panic of Rust `u32`
subtraction. -/
def sub32 (a b : Nat) : Option Nat :=
  if b ≤ a then some (a - b) else none

/-- Variant of `check_access` whose two `u32` subtractions are checked: the outer
`none` embeds a panic, `some r` means the function returns `r`. -/
def check_access_checked (bus : SystemBus σ) (address : Nat) (size : Nat) :
    Option (Option (Resource × Nat)) :=
  match bus.memory_map.range_value address with
  | (_, none) => some none
  | (range, some resource) =>
    if size = 0 then some none
    else if 2 ^ 32 ≤ size - 1 then some none
    else match sub32 range.endAddr address with
      | none => none
      | some slack =>
        if slack < size - 1 then some none
        else match sub32 address range.start with
          | none => none
          | some offset => some (some (resource, offset))

/-- Embeds `SystemBus::bus_of`: dispatch from a resource tag to the owned device's
bus interface. -/
def bus_of (bus : SystemBus σ) : Resource → DevBus σ
  | .Mrom => bus.mrom.toDevBus
  | .Clint => bus.clint.toDevBus
  | .Plic => bus.plic.toDevBus
  | .Uart0 => bus.uart0.toDevBus
  | .Flash => bus.flash.toDevBus
  | .Dram => bus.dram.toDevBus
  | .PowerDown => bus.power_down

/-- Interrupt callback holding a non-owning reference to the bus and a fixed channel
index.  Embeds `PlicIrqCallback`; the weak reference (`Weak<SystemBus<A>>`) is
embedded as the result its `upgrade` yields at call time: `some bus` while a strong
owner is still live, `none` once the last strong owner is gone. -/
structure PlicIrqCallback (σ : Type) where
  bus : Option (SystemBus σ)
  index : Nat

/-- Embeds `IrqCallback::raise` for `PlicIrqCallback`: upgrade the weak reference;
on success forward to the PLIC, otherwise do nothing. -/
def PlicIrqCallback.raise (cb : PlicIrqCallback σ) (s : σ) : σ :=
  match cb.bus with
  | some bus => bus.plic.raise s cb.index
  | none => s

/-- Embeds `IrqCallback::lower` for `PlicIrqCallback`: upgrade the weak reference;
on success forward to the PLIC, otherwise do nothing. -/
def PlicIrqCallback.lower (cb : PlicIrqCallback σ) (s : σ) : σ :=
  match cb.bus with
  | some bus => bus.plic.lower s cb.index
  | none => s

/-- Embeds `SystemBus::get_plic_irq_callback`.  The source panics if `index` is not
in `1..=52`; the panic is embedded as `none`. -/
def get_plic_irq_callback (bus : Option (SystemBus σ)) (index : Nat) :
    Option (PlicIrqCallback σ) :=
  if 1 ≤ index ∧ index ≤ 52 then some { bus := bus, index := index } else none

/-- Embeds `SystemBus::drop`: the consuming release operation, threading the
allocator state through each owned device's `drop` in source order
(mrom, clint, plic, uart0, flash, dram); the power-down register is not dropped. -/
def SystemBus.drop (bus : SystemBus σ) (s : σ) : σ :=
  bus.dram.drop (bus.flash.drop (bus.uart0.drop (bus.plic.drop
    (bus.clint.drop (bus.mrom.drop s)))))

/-- Embeds `SystemBus::accepts` (the `crate::system_bus::SystemBus` impl): range
containment via `check_access`, then the per-device size/direction policy table. -/
def accepts (bus : SystemBus σ) (address : Nat) (size : Nat)
    (access_type : AccessType) : Bool :=
  match check_access bus address size with
  | none => false
  | some (resource, _) =>
    match resource with
    | .Mrom => !(access_type == .Write)
    | .Clint => size == 4 || size == 8
    | .Plic => size == 4
    | .Uart0 => true
    | .Flash => !(access_type == .Write)
    | .Dram => true
    | .PowerDown => access_type == .Write

/-- Embeds `Bus::read` for `SystemBus`: if no region is being accessed, or the
access is not valid, nothing happens; otherwise forward to the resolved device at
the mapped address. -/
def SystemBus.read (bus : SystemBus σ) (buf : List Nat) (s : σ) (address : Nat) :
    List Nat × σ :=
  match check_access bus address buf.length with
  | some (resource, mapped_address) => (bus_of bus resource).read buf s mapped_address
  | none => (buf, s)

/-- Embeds `Bus::read_debug` for `SystemBus`. -/
def SystemBus.read_debug (bus : SystemBus σ) (buf : List Nat) (s : σ)
    (address : Nat) : List Nat :=
  match check_access bus address buf.length with
  | some (resource, mapped_address) =>
      (bus_of bus resource).read_debug buf s mapped_address
  | none => buf

/-- Embeds `Bus::write` for `SystemBus`. -/
def SystemBus.write (bus : SystemBus σ) (s : σ) (address : Nat) (buf : List Nat) :
    σ :=
  match check_access bus address buf.length with
  | some (resource, mapped_address) =>
      (bus_of bus resource).write s mapped_address buf
  | none => s

/-- The order in which `SystemBus.drop` releases the owned devices. -/
def dropTrace : List Resource := [.Mrom, .Clint, .Plic, .Uart0, .Flash, .Dram]

/-- The release operation of the device a tag resolves to, when the device holds
allocator-managed backing storage; the power-down register holds none. -/
def devRelease (bus : SystemBus σ) : Resource → Option (σ → σ)
  | .Mrom => some bus.mrom.drop
  | .Clint => some bus.clint.drop
  | .Plic => some bus.plic.drop
  | .Uart0 => some bus.uart0.drop
  | .Flash => some bus.flash.drop
  | .Dram => some bus.dram.drop
  | .PowerDown => none

/-- A concrete address map for witnesses: boot ROM at `[0, 0xFFF]`, RAM at
`[0x1000, 0x1FFF]`, everything above vacant. -/
def sampleMap : TwoWayAddressMap where
  range_value a :=
    if a < 4096 then (⟨0, 4095⟩, some .Mrom)
    else if a < 8192 then (⟨4096, 8191⟩, some .Dram)
    else (⟨8192, 2 ^ 32 - 1⟩, none)

/-- A concrete owned device over state `Nat` whose `write` is observable. -/
def sampleDev : OwnedDev Nat where
  read buf s _ := (buf, s)
  read_debug buf _ _ := buf
  write s _ _ := s + 1
  drop s := s

/-- A concrete PLIC device over state `Nat`. -/
def samplePlic : PlicDev Nat where
  read buf s _ := (buf, s)
  read_debug buf _ _ := buf
  write s _ _ := s + 1
  drop s := s
  raise s i := s + i
  lower s i := s + 2 * i

/-- A concrete bus over state `Nat` used by the witnesses. -/
def sampleBus : SystemBus Nat where
  memory_map := sampleMap
  mrom := sampleDev
  clint := sampleDev
  plic := samplePlic
  uart0 := sampleDev
  flash := sampleDev
  dram := sampleDev
  power_down := sampleDev.toDevBus

/-- C1: `check_access` rejects exactly when the covering range has no associated
device, or the size is zero, or `address + size - 1` exceeds the range's inclusive
end (stated over `Nat`, i.e. without 32-bit overflow, so any `size` whose
`size - 1` does not fit in 32 bits is rejected); otherwise it returns the device
tag and the offset `address - range.start`.  Stated under the address-map
invariant that the covering range contains the address and ends below `2 ^ 32`. -/
theorem check_access_correct (σ : Type) (bus : SystemBus σ) (address size : Nat)
    (h1 : (bus.memory_map.range_value address).1.start ≤ address)
    (h2 : address ≤ (bus.memory_map.range_value address).1.endAddr)
    (h3 : (bus.memory_map.range_value address).1.endAddr < 2 ^ 32) :
    check_access bus address size =
      if (bus.memory_map.range_value address).2 = none ∨ size = 0 ∨
          (bus.memory_map.range_value address).1.endAddr < address + size - 1 then
        none
      else
        (bus.memory_map.range_value address).2.map
          (fun r => (r, address - (bus.memory_map.range_value address).1.start)) := by
  rcases hrv : bus.memory_map.range_value address with ⟨range, tag⟩
  rw [hrv] at h1 h2 h3
  simp only at h1 h2 h3
  unfold check_access
  rw [hrv]
  rcases tag with _ | r
  · simp
  · simp only [Option.map_some']
    split_ifs with hz hov hlt hc hc hc hc <;> simp_all <;> omega

/-- Witness for C1 at a concrete bus and access. -/
theorem check_access_correct_witness :
    ((sampleBus.memory_map.range_value 4096).1.start ≤ 4096 ∧
      4096 ≤ (sampleBus.memory_map.range_value 4096).1.endAddr ∧
      (sampleBus.memory_map.range_value 4096).1.endAddr < 2 ^ 32) ∧
    check_access sampleBus 4096 4 =
      (if (sampleBus.memory_map.range_value 4096).2 = none ∨ (4 : Nat) = 0 ∨
          (sampleBus.memory_map.range_value 4096).1.endAddr < 4096 + 4 - 1 then
        none
      else
        (sampleBus.memory_map.range_value 4096).2.map
          (fun r => (r, 4096 - (sampleBus.memory_map.range_value 4096).1.start))) :=
  ⟨⟨by decide, by decide, by decide⟩,
    check_access_correct Nat sampleBus 4096 4 (by decide) (by decide) (by decide)⟩

/-- C2: `accepts` holds exactly when `check_access` succeeds and the resolved
device's size/direction policy rule holds: boot ROM and flash reject writes;
the CLINT accepts only size 4 or 8; the PLIC accepts only size 4; UART and RAM
accept everything; the power-down register accepts only writes. -/
theorem accepts_correct (σ : Type) (bus : SystemBus σ) (address size : Nat)
    (t : AccessType) :
    accepts bus address size t = true ↔
      ∃ r off, check_access bus address size = some (r, off) ∧
        ((r = .Mrom ∧ t ≠ .Write) ∨
         (r = .Clint ∧ (size = 4 ∨ size = 8)) ∨
         (r = .Plic ∧ size = 4) ∨
         r = .Uart0 ∨
         (r = .Flash ∧ t ≠ .Write) ∨
         r = .Dram ∨
         (r = .PowerDown ∧ t = .Write)) := by
  unfold accepts
  rcases hca : check_access bus address size with _ | ⟨r, off⟩
  · simp
  · rcases r <;> rcases t <;> simp

/-- C3 counterexample: on a concrete bus a 1-byte write into the boot-ROM range has
`accepts = false` (the policy table rejects writes to ROM), yet the write is still
forwarded to the device and changes its state — refuting, as stated, the claim that
`accepts = false` implies the access has no effect. -/
theorem accepts_false_still_forwards :
    accepts sampleBus 0 1 .Write = false ∧ SystemBus.write sampleBus 0 0 [171] ≠ 0 := by
  constructor
  · decide
  · decide

/-- C3 amended: `accepts = true` implies the access is forwarded to (reaches) the
resolved device, and a `check_access` failure implies no effect; but an access that
passes range containment while failing the policy table is still forwarded, so
`accepts = false` alone does not imply absence of effect. -/
theorem accepts_advisory (σ : Type) (bus : SystemBus σ) (s : σ) (buf : List Nat)
    (address : Nat) (t : AccessType) :
    (accepts bus address buf.length t = true →
      ∃ r off, check_access bus address buf.length = some (r, off) ∧
        SystemBus.read bus buf s address = (bus_of bus r).read buf s off ∧
        SystemBus.write bus s address buf = (bus_of bus r).write s off buf) ∧
    (check_access bus address buf.length = none →
      SystemBus.read bus buf s address = (buf, s) ∧
      SystemBus.write bus s address buf = s) := by
  constructor
  · intro h
    unfold accepts at h
    rcases hca : check_access bus address buf.length with _ | ⟨r, off⟩
    · rw [hca] at h; simp at h
    · refine ⟨r, off, rfl, ?_, ?_⟩ <;> simp only [SystemBus.read, SystemBus.write, hca]
  · intro h
    unfold SystemBus.read SystemBus.write
    rw [h]
    exact ⟨rfl, rfl⟩

/-- Witness for the amended C3: a 4-byte read of RAM is accepted and forwarded. -/
theorem accepts_advisory_witness :
    accepts sampleBus 4096 4 AccessType.Read = true ∧
    ∃ r off, check_access sampleBus 4096 4 = some (r, off) ∧
      SystemBus.read sampleBus [1, 2, 3, 4] 0 4096 =
        (bus_of sampleBus r).read [1, 2, 3, 4] 0 off ∧
      SystemBus.write sampleBus 0 4096 [1, 2, 3, 4] =
        (bus_of sampleBus r).write 0 off [1, 2, 3, 4] :=
  ⟨by decide,
    (accepts_advisory Nat sampleBus 0 [1, 2, 3, 4] 4096 .Read).1 (by decide)⟩

/-- C4: each bus operation validates with the buffer's length as the size, and on
rejection is a complete no-op: `read` and `read_debug` return the destination
buffer unmodified together with unchanged state, and `write` leaves the state
unchanged; the return types carry no error value. -/
theorem rejected_access_is_noop (σ : Type) (bus : SystemBus σ) (s : σ)
    (buf : List Nat) (address : Nat)
    (h : check_access bus address buf.length = none) :
    SystemBus.read bus buf s address = (buf, s) ∧
    SystemBus.read_debug bus buf s address = buf ∧
    SystemBus.write bus s address buf = s := by
  unfold SystemBus.read SystemBus.read_debug SystemBus.write
  rw [h]
  exact ⟨rfl, rfl, rfl⟩

/-- Witness for C4 at a vacant address. -/
theorem rejected_access_is_noop_witness :
    check_access sampleBus 9000 1 = none ∧
    SystemBus.read sampleBus [7] 5 9000 = ([7], 5) ∧
    SystemBus.read_debug sampleBus [7] 5 9000 = [7] ∧
    SystemBus.write sampleBus 5 9000 [7] = 5 :=
  ⟨by decide, rejected_access_is_noop Nat sampleBus 5 [7] 9000 (by decide)⟩

/-- C5: an access that passes range containment (`check_access` succeeds) is
forwarded verbatim to the resolved device at the translated offset, with no
consultation of the size/direction policy table of `accepts`. -/
theorem contained_access_forwards (σ : Type) (bus : SystemBus σ) (s : σ)
    (buf : List Nat) (address : Nat) (r : Resource) (off : Nat)
    (h : check_access bus address buf.length = some (r, off)) :
    SystemBus.read bus buf s address = (bus_of bus r).read buf s off ∧
    SystemBus.read_debug bus buf s address = (bus_of bus r).read_debug buf s off ∧
    SystemBus.write bus s address buf = (bus_of bus r).write s off buf := by
  unfold SystemBus.read SystemBus.read_debug SystemBus.write
  rw [h]
  exact ⟨rfl, rfl, rfl⟩

/-- Witness for C5: a write inside the boot-ROM range violates the policy table
(`accepts = false`) yet is still forwarded to the ROM device. -/
theorem contained_access_forwards_witness :
    check_access sampleBus 0 1 = some (Resource.Mrom, 0) ∧
    accepts sampleBus 0 1 AccessType.Write = false ∧
    SystemBus.write sampleBus 0 0 [171] =
      (bus_of sampleBus Resource.Mrom).write 0 0 [171] :=
  ⟨by decide, by decide,
    (contained_access_forwards Nat sampleBus 0 [171] 0 Resource.Mrom 0 (by decide)).2.2⟩

/-- C6: the interrupt-callback factory fails fatally (embedded as `none`) exactly
for channel indices outside the inclusive range `[1, 52]`; indices 0 and 53 each
fail, indices 1 and 52 each succeed and return a callback. -/
theorem plic_irq_callback_validation (σ : Type) (bus : Option (SystemBus σ)) :
    (∀ index : Nat,
      get_plic_irq_callback bus index = none ↔ ¬(1 ≤ index ∧ index ≤ 52)) ∧
    get_plic_irq_callback bus 0 = none ∧
    get_plic_irq_callback bus 53 = none ∧
    (∃ cb, get_plic_irq_callback bus 1 = some cb) ∧
    (∃ cb, get_plic_irq_callback bus 52 = some cb) := by
  refine ⟨fun index => ?_, ?_, ?_, ?_, ?_⟩ <;> unfold get_plic_irq_callback
  · split_ifs with h <;> simp [h]
  · simp
  · simp
  · exact ⟨⟨bus, 1⟩, by simp⟩
  · exact ⟨⟨bus, 52⟩, by simp⟩

/-- C7: `raise` and `lower` first attempt to resolve the non-owning bus reference:
an unresolvable reference makes the call a silent no-op, and a resolvable one
forwards to the PLIC's raise/lower operation at the callback's fixed channel
index. -/
theorem irq_callback_resolution (σ : Type) (cb : PlicIrqCallback σ) (s : σ) :
    (cb.bus = none → cb.raise s = s ∧ cb.lower s = s) ∧
    (∀ bus, cb.bus = some bus →
      cb.raise s = bus.plic.raise s cb.index ∧
      cb.lower s = bus.plic.lower s cb.index) := by
  unfold PlicIrqCallback.raise PlicIrqCallback.lower
  constructor
  · intro h
    rw [h]
    exact ⟨rfl, rfl⟩
  · intro bus h
    rw [h]
    exact ⟨rfl, rfl⟩

/-- Witness for C7: a live callback forwards to the PLIC, a dead one is inert. -/
theorem irq_callback_resolution_witness :
    (PlicIrqCallback.raise ⟨some sampleBus, 3⟩ 10 = sampleBus.plic.raise 10 3 ∧
      PlicIrqCallback.lower ⟨some sampleBus, 3⟩ 10 = sampleBus.plic.lower 10 3) ∧
    (PlicIrqCallback.raise ⟨(none : Option (SystemBus Nat)), 3⟩ 10 = 10 ∧
      PlicIrqCallback.lower ⟨(none : Option (SystemBus Nat)), 3⟩ 10 = 10) :=
  ⟨(irq_callback_resolution Nat ⟨some sampleBus, 3⟩ 10).2 sampleBus rfl,
    (irq_callback_resolution Nat ⟨none, 3⟩ 10).1 rfl⟩

/-- C8: the consuming release operation releases the backing storage of every
storage-holding device exactly once in the fixed deterministic order
mrom, clint, plic, uart0, flash, dram; the power-down register, which holds no
allocator-managed storage, is the only device excluded. -/
theorem drop_releases_each_device_once (σ : Type) (bus : SystemBus σ) (s : σ) :
    SystemBus.drop bus s =
      dropTrace.foldl (fun a r => ((devRelease bus r).getD id) a) s ∧
    (∀ r : Resource, dropTrace.count r = if r = .PowerDown then 0 else 1) ∧
    (∀ r : Resource, devRelease bus r = none ↔ r = .PowerDown) := by
  refine ⟨rfl, fun r => ?_, fun r => ?_⟩
  · cases r <;> decide
  · cases r <;> simp [devRelease]

/-- C9: under the address-map invariant that the covering range contains the
address, the two `u32` subtractions in `check_access` never underflow: the
panic-tracking variant always returns (never panics) and agrees with
`check_access`, for every address and size. -/
theorem check_access_never_panics (σ : Type) (bus : SystemBus σ)
    (address size : Nat)
    (h1 : (bus.memory_map.range_value address).1.start ≤ address)
    (h2 : address ≤ (bus.memory_map.range_value address).1.endAddr) :
    check_access_checked bus address size = some (check_access bus address size) := by
  unfold check_access_checked check_access sub32
  rcases hrv : bus.memory_map.range_value address with ⟨range, tag⟩
  rw [hrv] at h1 h2
  simp only at h1 h2
  rcases tag with _ | r
  · rfl
  · simp only [if_pos h1, if_pos h2]
    split_ifs <;> rfl

/-- Witness for C9 at a concrete bus and access. -/
theorem check_access_never_panics_witness :
    ((sampleBus.memory_map.range_value 5000).1.start ≤ 5000 ∧
      5000 ≤ (sampleBus.memory_map.range_value 5000).1.endAddr) ∧
    check_access_checked sampleBus 5000 2 = some (check_access sampleBus 5000 2) :=
  ⟨⟨by decide, by decide⟩,
    check_access_never_panics Nat sampleBus 5000 2 (by decide) (by decide)⟩

/-- C10: the factory validates only the channel index and never inspects the weak
bus reference: for every index in `[1, 52]` it succeeds even when the referenced
bus is already gone, and every `raise`/`lower` call on such a callback is a silent
no-op. -/
theorem factory_ignores_liveness (σ : Type) (s : σ) (index : Nat)
    (h1 : 1 ≤ index) (h2 : index ≤ 52) :
    ∃ cb : PlicIrqCallback σ,
      get_plic_irq_callback (none : Option (SystemBus σ)) index = some cb ∧
      cb.raise s = s ∧ cb.lower s = s := by
  refine ⟨⟨none, index⟩, ?_, rfl, rfl⟩
  unfold get_plic_irq_callback
  rw [if_pos ⟨h1, h2⟩]

/-- Witness for C10 at index 52 on a dead bus reference. -/
theorem factory_ignores_liveness_witness :
    ((1 : Nat) ≤ 52 ∧ (52 : Nat) ≤ 52) ∧
    ∃ cb : PlicIrqCallback Nat,
      get_plic_irq_callback (none : Option (SystemBus Nat)) 52 = some cb ∧
      cb.raise 9 = 9 ∧ cb.lower 9 = 9 :=
  ⟨⟨by decide, by decide⟩,
    factory_ignores_liveness Nat 9 52 (by decide) (by decide)⟩

end RedPlanet
